import Mathlib

/-!
# Brave component-updater configurator

A shallow embedding of
`brave/browser/component_updater/brave_component_updater_configurator.cc`.

`BraveConfigurator` wraps Chromium's `ConfiguratorImpl` and overrides some of
its answers depending on the `use_brave_server_` flag.  The Chromium classes
the file uses (`ConfiguratorImpl`, `BrowserProcess`,
`SystemNetworkContextManager`, `ServiceManagerConnection`) are not part of the
translated file; their observable answers are carried as data so that every
statement below quantifies over all of them.

Conventions of the embedding:
* a C++ pointer (raw, `scoped_refptr` or `unique_ptr`) is an `Option`, with
  `none` for the null pointer;
* a method that dereferences a pointer or runs a `DCHECK` returns
  `Except Fault _`, with `Except.error` for the fault;
* `int` is `Int`, `std::string` is `String`, `std::vector<T>` is `List T`.
-/

namespace component_updater

/-! ## Value types coming from Chromium -/

/-- A `GURL`, identified by the spec string it was built from. -/
structure GURL where
  spec : String
deriving DecidableEq, Repr

/-- A `base::Version`: the dotted components. -/
structure Version where
  components : List Nat
deriving DecidableEq, Repr

/-- A `base::CommandLine`: the argument vector. -/
structure CommandLine where
  argv : List String
deriving DecidableEq, Repr

/-- The policy object `ComponentUpdaterCommandLineConfigPolicy(cmdline)`: it is
determined by the command line it is built from. -/
structure ComponentUpdaterCommandLineConfigPolicy where
  cmdline : CommandLine
deriving DecidableEq, Repr

/-- The object a `net::URLRequestContextGetter*` points to. -/
structure URLRequestContextGetter where
  id : Nat
deriving DecidableEq, Repr

/-- The object a `scoped_refptr<network::SharedURLLoaderFactory>` points to. -/
structure SharedURLLoaderFactory where
  id : Nat
deriving DecidableEq, Repr

/-- The object a `PrefService*` points to. -/
structure PrefService where
  id : Nat
deriving DecidableEq, Repr

/-- The object an `update_client::ActivityDataService*` points to. -/
structure ActivityDataService where
  id : Nat
deriving DecidableEq, Repr

/-- A `service_manager::Connector`; `Clone()` yields a connector bound to the
same service manager. -/
structure Connector where
  id : Nat
deriving DecidableEq, Repr

/-! ## The wrapped base configurator -/

/-- The answers of the wrapped `ConfiguratorImpl configurator_impl_`, one field
per method the translated file can call on it.  The class itself lives in
Chromium (`components/component_updater/configurator_impl.h`), so its answers
are arbitrary data here. -/
structure ConfiguratorImpl where
  InitialDelay : Int
  NextCheckDelay : Int
  OnDemandDelay : Int
  UpdateDelay : Int
  UpdateUrl : List GURL
  PingUrl : List GURL
  GetProdId : String
  GetBrowserVersion : Version
  GetChannel : String
  GetBrand : String
  GetLang : String
  GetOSLongName : String
  ExtraRequestParams : String
  GetDownloadPreference : String
  EnabledDeltas : Bool
  EnabledComponentUpdates : Bool
  EnabledBackgroundDownloader : Bool
  EnabledCupSigning : Bool
  IsPerUserInstall : Bool
  GetRunActionKeyHash : List Nat
  GetAppGuid : String
deriving DecidableEq, Repr

/-! ## Process-wide singletons -/

/-- The `SystemNetworkContextManager` singleton. -/
structure SystemNetworkContextManager where
  GetSharedURLLoaderFactory : Option SharedURLLoaderFactory
deriving DecidableEq, Repr

/-- The object `g_browser_process` points to. -/
structure BrowserProcess where
  system_request_context : Option URLRequestContextGetter
  system_network_context_manager : Option SystemNetworkContextManager
deriving DecidableEq, Repr

/-- The object `content::ServiceManagerConnection::GetForProcess()` points
to. -/
structure ServiceManagerConnection where
  GetConnector : Option Connector
deriving DecidableEq, Repr

/-- Everything outside the configurator object that its methods read: the
global pointers, the current thread, and the build configuration. -/
structure Globals where
  /-- The global `g_browser_process`; `none` before the browser process
  exists. -/
  g_browser_process : Option BrowserProcess
  /-- The result of `content::ServiceManagerConnection::GetForProcess()`. -/
  GetForProcess : Option ServiceManagerConnection
  /-- Whether the calling thread is `content::BrowserThread::UI`. -/
  on_ui_thread : Bool
  /-- Whether `DCHECK`s are compiled in. -/
  dcheck_is_on : Bool
  /-- Whether `OS_WIN` is defined. -/
  os_win : Bool
  /-- The value of `install_static::UTF16ToUTF8(install_static::GetAppGuid())`
  (read only when `OS_WIN` is defined). -/
  install_static_app_guid : String
deriving DecidableEq, Repr

/-- The ways a method of the translated file can fault. -/
inductive Fault where
  /-- A null pointer was dereferenced. -/
  | nullDereference
  /-- The check `DCHECK_CURRENTLY_ON` failed. -/
  | dcheckFailed
deriving DecidableEq, Repr

/-! ## The configurator -/

/-- The class `BraveConfigurator`: its two data members. -/
structure BraveConfigurator where
  configurator_impl_ : ConfiguratorImpl
  use_brave_server_ : Bool
deriving DecidableEq, Repr

/-- The constructor `BraveConfigurator::BraveConfigurator`.  The constructor of
the base class is the parameter `base`; it is called with the command-line
policy and the literal `false`.  The argument `url_request_getter` is not
used. -/
def BraveConfigurator.new
    (base : ComponentUpdaterCommandLineConfigPolicy → Bool → ConfiguratorImpl)
    (cmdline : CommandLine) (_url_request_getter : Option URLRequestContextGetter)
    (use_brave_server : Bool) : BraveConfigurator :=
  { configurator_impl_ := base (ComponentUpdaterCommandLineConfigPolicy.mk cmdline) false
    use_brave_server_ := use_brave_server }

/-- The factory `MakeBraveComponentUpdaterConfigurator`. -/
def MakeBraveComponentUpdaterConfigurator
    (base : ComponentUpdaterCommandLineConfigPolicy → Bool → ConfiguratorImpl)
    (cmdline : CommandLine) (context_getter : Option URLRequestContextGetter)
    (use_brave_server : Bool) : BraveConfigurator :=
  BraveConfigurator.new base cmdline context_getter use_brave_server

namespace BraveConfigurator

def InitialDelay (c : BraveConfigurator) : Int :=
  c.configurator_impl_.InitialDelay

def NextCheckDelay (c : BraveConfigurator) : Int :=
  c.configurator_impl_.NextCheckDelay

def OnDemandDelay (c : BraveConfigurator) : Int :=
  c.configurator_impl_.OnDemandDelay

def UpdateDelay (c : BraveConfigurator) : Int :=
  c.configurator_impl_.UpdateDelay

def UpdateUrl (c : BraveConfigurator) : List GURL :=
  if c.use_brave_server_ then
    [GURL.mk "https://laptop-updates.brave.com/extensions"]
  else
    -- For Chrome's component store
    c.configurator_impl_.UpdateUrl

def PingUrl (c : BraveConfigurator) : List GURL :=
  c.UpdateUrl

def GetProdId (_c : BraveConfigurator) : String :=
  ""

def GetBrowserVersion (c : BraveConfigurator) : Version :=
  c.configurator_impl_.GetBrowserVersion

def GetChannel (_c : BraveConfigurator) : String :=
  "stable"

def GetBrand (_c : BraveConfigurator) : String :=
  ""

def GetLang (_c : BraveConfigurator) : String :=
  ""

def GetOSLongName (c : BraveConfigurator) : String :=
  c.configurator_impl_.GetOSLongName

def ExtraRequestParams (c : BraveConfigurator) : String :=
  c.configurator_impl_.ExtraRequestParams

def GetDownloadPreference (_c : BraveConfigurator) : String :=
  ""

/-- The method `RequestContext`: dereferences `g_browser_process`. -/
def RequestContext (_c : BraveConfigurator) (g : Globals) :
    Except Fault (Option URLRequestContextGetter) :=
  match g.g_browser_process with
  | none => Except.error Fault.nullDereference
  | some bp => Except.ok bp.system_request_context

/-- The method `URLLoaderFactory`: dereferences `g_browser_process`, then
returns null when the manager is null and the manager's factory otherwise. -/
def URLLoaderFactory (_c : BraveConfigurator) (g : Globals) :
    Except Fault (Option SharedURLLoaderFactory) :=
  match g.g_browser_process with
  | none => Except.error Fault.nullDereference
  | some bp =>
    match bp.system_network_context_manager with
    -- Manager will be null if called from InitializeForTesting.
    | none => Except.ok none
    | some system_network_context_manager =>
      Except.ok system_network_context_manager.GetSharedURLLoaderFactory

/-- The method `CreateServiceManagerConnector`: the thread check first (when
`DCHECK`s are compiled in), then `GetForProcess()->GetConnector()->Clone()`. -/
def CreateServiceManagerConnector (_c : BraveConfigurator) (g : Globals) :
    Except Fault Connector :=
  if g.dcheck_is_on && !g.on_ui_thread then
    Except.error Fault.dcheckFailed
  else
    match g.GetForProcess with
    | none => Except.error Fault.nullDereference
    | some connection =>
      match connection.GetConnector with
      | none => Except.error Fault.nullDereference
      | some connector => Except.ok connector

def EnabledComponentUpdates (c : BraveConfigurator) : Bool :=
  c.configurator_impl_.EnabledComponentUpdates

def EnabledDeltas (_c : BraveConfigurator) : Bool :=
  -- TODO(bbondy): Re-enable
  false

def EnabledBackgroundDownloader (c : BraveConfigurator) : Bool :=
  c.configurator_impl_.EnabledBackgroundDownloader

def EnabledCupSigning (c : BraveConfigurator) : Bool :=
  if c.use_brave_server_ then
    false
  else
    c.configurator_impl_.EnabledCupSigning

def GetPrefService (_c : BraveConfigurator) : Option PrefService :=
  none

def GetActivityDataService (_c : BraveConfigurator) : Option ActivityDataService :=
  none

def IsPerUserInstall (_c : BraveConfigurator) : Bool :=
  false

def GetRunActionKeyHash (c : BraveConfigurator) : List Nat :=
  c.configurator_impl_.GetRunActionKeyHash

def GetAppGuid (c : BraveConfigurator) (g : Globals) : String :=
  if g.os_win then
    g.install_static_app_guid
  else
    c.configurator_impl_.GetAppGuid

end BraveConfigurator

/-! ## The interface as a whole -/

/-- The methods of `update_client::Configurator` that `BraveConfigurator`
overrides, in the order of the class declaration. -/
inductive Query where
  | InitialDelay
  | NextCheckDelay
  | OnDemandDelay
  | UpdateDelay
  | UpdateUrl
  | PingUrl
  | GetProdId
  | GetBrowserVersion
  | GetChannel
  | GetBrand
  | GetLang
  | GetOSLongName
  | ExtraRequestParams
  | GetDownloadPreference
  | RequestContext
  | URLLoaderFactory
  | CreateServiceManagerConnector
  | EnabledDeltas
  | EnabledComponentUpdates
  | EnabledBackgroundDownloader
  | EnabledCupSigning
  | GetPrefService
  | GetActivityDataService
  | IsPerUserInstall
  | GetRunActionKeyHash
  | GetAppGuid
deriving DecidableEq, Repr

/-- A value returned by one of the methods, tagged with its C++ type. -/
inductive Value where
  | int (n : Int)
  | urls (l : List GURL)
  | string (s : String)
  | version (v : Version)
  | bool (b : Bool)
  | bytes (l : List Nat)
  | requestContext (p : Option URLRequestContextGetter)
  | loaderFactory (p : Option SharedURLLoaderFactory)
  | connector (p : Connector)
  | prefService (p : Option PrefService)
  | activityDataService (p : Option ActivityDataService)
deriving DecidableEq, Repr

/-- Calling the method `q` on the configurator `c` in the environment `g`:
either a fault or the returned value. -/
def BraveConfigurator.call (c : BraveConfigurator) (g : Globals) :
    Query → Except Fault Value
  | Query.InitialDelay => Except.ok (Value.int c.InitialDelay)
  | Query.NextCheckDelay => Except.ok (Value.int c.NextCheckDelay)
  | Query.OnDemandDelay => Except.ok (Value.int c.OnDemandDelay)
  | Query.UpdateDelay => Except.ok (Value.int c.UpdateDelay)
  | Query.UpdateUrl => Except.ok (Value.urls c.UpdateUrl)
  | Query.PingUrl => Except.ok (Value.urls c.PingUrl)
  | Query.GetProdId => Except.ok (Value.string c.GetProdId)
  | Query.GetBrowserVersion => Except.ok (Value.version c.GetBrowserVersion)
  | Query.GetChannel => Except.ok (Value.string c.GetChannel)
  | Query.GetBrand => Except.ok (Value.string c.GetBrand)
  | Query.GetLang => Except.ok (Value.string c.GetLang)
  | Query.GetOSLongName => Except.ok (Value.string c.GetOSLongName)
  | Query.ExtraRequestParams => Except.ok (Value.string c.ExtraRequestParams)
  | Query.GetDownloadPreference => Except.ok (Value.string c.GetDownloadPreference)
  | Query.RequestContext => (c.RequestContext g).map Value.requestContext
  | Query.URLLoaderFactory => (c.URLLoaderFactory g).map Value.loaderFactory
  | Query.CreateServiceManagerConnector =>
    (c.CreateServiceManagerConnector g).map Value.connector
  | Query.EnabledDeltas => Except.ok (Value.bool c.EnabledDeltas)
  | Query.EnabledComponentUpdates => Except.ok (Value.bool c.EnabledComponentUpdates)
  | Query.EnabledBackgroundDownloader =>
    Except.ok (Value.bool c.EnabledBackgroundDownloader)
  | Query.EnabledCupSigning => Except.ok (Value.bool c.EnabledCupSigning)
  | Query.GetPrefService => Except.ok (Value.prefService c.GetPrefService)
  | Query.GetActivityDataService =>
    Except.ok (Value.activityDataService c.GetActivityDataService)
  | Query.IsPerUserInstall => Except.ok (Value.bool c.IsPerUserInstall)
  | Query.GetRunActionKeyHash => Except.ok (Value.bytes c.GetRunActionKeyHash)
  | Query.GetAppGuid => Except.ok (Value.string (c.GetAppGuid g))

/-! ## Concrete inputs used in the scenarios -/

/-- A base configurator whose answers all differ from what `BraveConfigurator`
hard-codes: one default update URL, a separate ping URL, signing and deltas
on, non-empty identity strings. -/
def scenarioBase : ConfiguratorImpl :=
  { InitialDelay := 360
    NextCheckDelay := 18000
    OnDemandDelay := 1800
    UpdateDelay := 900
    UpdateUrl := [GURL.mk "https://default.example/update"]
    PingUrl := [GURL.mk "https://default.example/ping"]
    GetProdId := "chrome"
    GetBrowserVersion := Version.mk [69, 0, 3497, 100]
    GetChannel := "beta"
    GetBrand := "GGLS"
    GetLang := "en-US"
    GetOSLongName := "Linux"
    ExtraRequestParams := "testrequest=1"
    GetDownloadPreference := "cacheable"
    EnabledDeltas := true
    EnabledComponentUpdates := true
    EnabledBackgroundDownloader := false
    EnabledCupSigning := true
    IsPerUserInstall := true
    GetRunActionKeyHash := [1, 2, 3]
    GetAppGuid := "guid" }

/-- The environment before the browser process exists: `g_browser_process` is
null. -/
def noBrowserProcess : Globals :=
  { g_browser_process := none
    GetForProcess := none
    on_ui_thread := true
    dcheck_is_on := true
    os_win := false
    install_static_app_guid := "" }

/-- The environment of a test harness: the browser process exists, its system
network context manager does not. -/
def testingGlobals : Globals :=
  { g_browser_process :=
      some { system_request_context := none, system_network_context_manager := none }
    GetForProcess := none
    on_ui_thread := true
    dcheck_is_on := true
    os_win := false
    install_static_app_guid := "" }

/-- An environment in which the network subsystem is up. -/
def runningGlobals : Globals :=
  { g_browser_process :=
      some { system_request_context := some (URLRequestContextGetter.mk 1)
             system_network_context_manager :=
               some { GetSharedURLLoaderFactory := some (SharedURLLoaderFactory.mk 7) } }
    GetForProcess := some { GetConnector := some (Connector.mk 3) }
    on_ui_thread := true
    dcheck_is_on := true
    os_win := false
    install_static_app_guid := "" }

/-! ## URL schemes -/

/-- Modelled from the spec: `GURL` is Chromium's URL class and is not part of
the translated file.  The scheme of a URL is the text of its spec before the
first colon, as in `GURL::scheme()` for the canonical lower-case specs used
here. -/
def GURL.scheme (u : GURL) : String :=
  String.mk (u.spec.data.takeWhile (fun ch => ch != ':'))

/-- The test `GURL::SchemeIs`. -/
def GURL.SchemeIs (u : GURL) (lower_ascii_scheme : String) : Bool :=
  u.scheme == lower_ascii_scheme

/-! ## What the specification says of the base policy -/

/-- Modelled from the spec: the base policy is Chromium's `ConfiguratorImpl`,
which is not part of the translated file.  Its default endpoint set is an
EndpointSet, "an ordered sequence of URLs (at least one)", "non-empty whenever
queried". -/
def ConfiguratorImpl.EndpointSetNonEmpty (impl : ConfiguratorImpl) : Prop :=
  impl.UpdateUrl ≠ []

instance (impl : ConfiguratorImpl) : Decidable impl.EndpointSetNonEmpty :=
  inferInstanceAs (Decidable (impl.UpdateUrl ≠ []))

/-- Modelled from the spec: the base policy is Chromium's `ConfiguratorImpl`,
which is not part of the translated file.  Its delays form a DelaySchedule,
"four independent non-negative integers". -/
def ConfiguratorImpl.DelayScheduleNonNegative (impl : ConfiguratorImpl) : Prop :=
  0 ≤ impl.InitialDelay ∧ 0 ≤ impl.NextCheckDelay ∧ 0 ≤ impl.OnDemandDelay
    ∧ 0 ≤ impl.UpdateDelay

instance (impl : ConfiguratorImpl) : Decidable impl.DelayScheduleNonNegative :=
  inferInstanceAs (Decidable (0 ≤ impl.InitialDelay ∧ 0 ≤ impl.NextCheckDelay
    ∧ 0 ≤ impl.OnDemandDelay ∧ 0 ≤ impl.UpdateDelay))

/-- The system network context manager as a caller sees it: null when the
browser process does not exist or has no manager. -/
def Globals.system_network_context_manager (g : Globals) :
    Option SystemNetworkContextManager :=
  match g.g_browser_process with
  | none => none
  | some bp => bp.system_network_context_manager

/-! ## Further concrete inputs -/

/-- A base configurator whose only update URL is a plain-HTTP endpoint. -/
def httpBase : ConfiguratorImpl :=
  { scenarioBase with UpdateUrl := [GURL.mk "http://default.example/update"] }

/-- A build without `DCHECK`s, called off the UI thread, with the service
manager connection up. -/
def releaseOffThreadGlobals : Globals :=
  { runningGlobals with on_ui_thread := false, dcheck_is_on := false }

/-- A build with `DCHECK`s, called off the UI thread, with the service manager
connection up. -/
def debugOffThreadGlobals : Globals :=
  { runningGlobals with on_ui_thread := false, dcheck_is_on := true }

/-- A base-class constructor that makes its two arguments observable: the
command line's arguments become the extra request parameters, and the
`require_encryption` argument becomes the answer of
`EnabledComponentUpdates`. -/
def recordingBase (config_policy : ComponentUpdaterCommandLineConfigPolicy)
    (require_encryption : Bool) : ConfiguratorImpl :=
  { scenarioBase with
    ExtraRequestParams := String.intercalate " " config_policy.cmdline.argv
    EnabledComponentUpdates := require_encryption }

/-! ## Endpoint selection -/

/-- C1: with `use_brave_server = true`, `UpdateUrl()` is the one-element list
holding `https://laptop-updates.brave.com/extensions`, whatever the base policy
is; no other URL of the base policy occurs in it.  The same holds for a
configurator built by the constructor, and in the scenario with base URL
`https://default.example/update`. -/
theorem C1_update_url_brave_server (impl : ConfiguratorImpl) :
    (BraveConfigurator.mk impl true).UpdateUrl
        = [GURL.mk "https://laptop-updates.brave.com/extensions"]
      ∧ (BraveConfigurator.mk impl true).UpdateUrl.length = 1
      ∧ (∀ u ∈ impl.UpdateUrl, u ≠ GURL.mk "https://laptop-updates.brave.com/extensions" →
          u ∉ (BraveConfigurator.mk impl true).UpdateUrl)
      ∧ (∀ base cmdline getter,
          (BraveConfigurator.new base cmdline getter true).UpdateUrl
            = [GURL.mk "https://laptop-updates.brave.com/extensions"])
      ∧ GURL.mk "https://default.example/update"
          ∉ (BraveConfigurator.mk scenarioBase true).UpdateUrl := by
  refine ⟨rfl, rfl, ?_, fun _ _ _ => rfl, ?_⟩
  · intro u _ hne hmem
    simp only [BraveConfigurator.UpdateUrl, if_true, List.mem_singleton] at hmem
    exact hne hmem
  · simp [BraveConfigurator.UpdateUrl]

/-- C1 witness: the scenario of the specification, evaluated. -/
theorem C1_update_url_brave_server_witness :
    (BraveConfigurator.mk scenarioBase true).UpdateUrl
      = [GURL.mk "https://laptop-updates.brave.com/extensions"] :=
  (C1_update_url_brave_server scenarioBase).1

/-- C2: with `use_brave_server = false`, `UpdateUrl()` is the base policy's
`UpdateUrl()`: the same list, hence the same length and the same element at
every index.  The same holds for a configurator built by the constructor. -/
theorem C2_update_url_default (impl : ConfiguratorImpl) :
    (BraveConfigurator.mk impl false).UpdateUrl = impl.UpdateUrl
      ∧ (BraveConfigurator.mk impl false).UpdateUrl.length = impl.UpdateUrl.length
      ∧ (∀ i, (BraveConfigurator.mk impl false).UpdateUrl.get? i = impl.UpdateUrl.get? i)
      ∧ (∀ base cmdline getter,
          (BraveConfigurator.new base cmdline getter false).UpdateUrl
            = (base (ComponentUpdaterCommandLineConfigPolicy.mk cmdline) false).UpdateUrl) :=
  ⟨rfl, rfl, fun _ => rfl, fun _ _ _ => rfl⟩

/-- C3: `PingUrl()` is `UpdateUrl()` in both deployment modes, and it does not
read the base policy's ping URLs: replacing them by any other list leaves
`PingUrl()` unchanged. -/
theorem C3_ping_url_eq_update_url (c : BraveConfigurator) :
    c.PingUrl = c.UpdateUrl
      ∧ (∀ urls : List GURL,
          (BraveConfigurator.mk { c.configurator_impl_ with PingUrl := urls }
              c.use_brave_server_).PingUrl = c.PingUrl)
      ∧ (BraveConfigurator.mk scenarioBase false).PingUrl
          = [GURL.mk "https://default.example/update"]
      ∧ (BraveConfigurator.mk scenarioBase true).PingUrl
          = [GURL.mk "https://laptop-updates.brave.com/extensions"] := by
  refine ⟨rfl, ?_, rfl, rfl⟩
  intro urls
  cases h : c.use_brave_server_ <;>
    simp [BraveConfigurator.PingUrl, BraveConfigurator.UpdateUrl, h]

/-! ## Security flags -/

/-- C4: `EnabledCupSigning()` is `false` with `use_brave_server = true`
whatever the base policy answers, and is the base policy's answer with
`use_brave_server = false`; a base answer of `true` gives `true` in default
mode and `false` in vendor mode. -/
theorem C4_enabled_cup_signing (impl : ConfiguratorImpl) :
    (BraveConfigurator.mk impl true).EnabledCupSigning = false
      ∧ (BraveConfigurator.mk impl false).EnabledCupSigning = impl.EnabledCupSigning
      ∧ (BraveConfigurator.mk scenarioBase false).EnabledCupSigning = true
      ∧ (BraveConfigurator.mk scenarioBase true).EnabledCupSigning = false :=
  ⟨rfl, rfl, rfl, rfl⟩

/-- C5: `EnabledDeltas()` is `false` for every configurator, also when the
base policy has deltas on. -/
theorem C5_enabled_deltas_false (c : BraveConfigurator) :
    c.EnabledDeltas = false
      ∧ scenarioBase.EnabledDeltas = true
      ∧ (BraveConfigurator.mk scenarioBase false).EnabledDeltas = false
      ∧ (BraveConfigurator.mk scenarioBase true).EnabledDeltas = false :=
  ⟨rfl, rfl, rfl, rfl⟩

/-! ## Non-emptiness of the endpoint lists -/

/-- C6: for every deployment mode and every base policy whose endpoint set is
non-empty, as the specification's EndpointSet requires, the lists returned by
`UpdateUrl()` and `PingUrl()` are non-empty, each holding at least one URL;
with `use_brave_server = true` this holds whatever the base policy reports. -/
theorem C6_urls_nonempty (c : BraveConfigurator)
    (hbase : c.configurator_impl_.EndpointSetNonEmpty) :
    (c.UpdateUrl ≠ [] ∧ c.PingUrl ≠ [])
      ∧ (1 ≤ c.UpdateUrl.length ∧ 1 ≤ c.PingUrl.length)
      ∧ (∀ impl, (BraveConfigurator.mk impl true).UpdateUrl ≠ []
          ∧ (BraveConfigurator.mk impl true).PingUrl ≠ []) := by
  have hne : c.UpdateUrl ≠ [] := by
    cases h : c.use_brave_server_
    · simpa [BraveConfigurator.UpdateUrl, h] using hbase
    · simp [BraveConfigurator.UpdateUrl, h]
  refine ⟨⟨hne, hne⟩, ⟨?_, ?_⟩, fun impl => ⟨?_, ?_⟩⟩
  · exact List.length_pos.mpr hne
  · exact List.length_pos.mpr hne
  · simp [BraveConfigurator.UpdateUrl]
  · simp [BraveConfigurator.PingUrl, BraveConfigurator.UpdateUrl]

/-- C6 witness: in default mode with the scenario base, whose endpoint set has
one URL, both lists are non-empty. -/
theorem C6_urls_nonempty_witness :
    (BraveConfigurator.mk scenarioBase false).UpdateUrl ≠ []
      ∧ (BraveConfigurator.mk scenarioBase false).PingUrl ≠ [] :=
  (C6_urls_nonempty (BraveConfigurator.mk scenarioBase false) (by decide)).1

/-! ## Network handles -/

/-- C7 fails as stated: before the browser process exists there is no system
network context manager, and `URLLoaderFactory()` does not return null: it
dereferences the null `g_browser_process` and faults. -/
theorem C7_counterexample :
    noBrowserProcess.system_network_context_manager = none
      ∧ (BraveConfigurator.mk scenarioBase true).URLLoaderFactory noBrowserProcess
        = Except.error Fault.nullDereference
      ∧ ¬ (∀ (c : BraveConfigurator) (g : Globals),
            g.system_network_context_manager = none →
              c.URLLoaderFactory g = Except.ok none) := by
  refine ⟨rfl, rfl, ?_⟩
  intro h
  have h1 := h (BraveConfigurator.mk scenarioBase true) noBrowserProcess rfl
  cases h1

/-- C7 as amended: when `g_browser_process` is not null, `URLLoaderFactory()`
does not fault; it returns null when the system network context manager is
null, without dereferencing it, and the manager's shared URL loader factory
otherwise; so its result is null exactly when the manager is null or the
manager's factory is null.  When `g_browser_process` is null, and only then,
the call faults on the null dereference. -/
theorem C7_url_loader_factory (c : BraveConfigurator) (g : Globals) :
    (c.URLLoaderFactory g = Except.error Fault.nullDereference ↔ g.g_browser_process = none)
      ∧ (∀ bp, g.g_browser_process = some bp →
          (bp.system_network_context_manager = none → c.URLLoaderFactory g = Except.ok none)
          ∧ (∀ m, bp.system_network_context_manager = some m →
              c.URLLoaderFactory g = Except.ok m.GetSharedURLLoaderFactory)
          ∧ (∃ r, c.URLLoaderFactory g = Except.ok r
              ∧ (r = none ↔ (bp.system_network_context_manager = none
                    ∨ ∃ m, bp.system_network_context_manager = some m
                        ∧ m.GetSharedURLLoaderFactory = none)))) := by
  refine ⟨?_, ?_⟩
  · unfold BraveConfigurator.URLLoaderFactory
    cases hg : g.g_browser_process with
    | none => simp
    | some bp =>
      cases hm : bp.system_network_context_manager <;> simp [hm]
  · intro bp hbp
    unfold BraveConfigurator.URLLoaderFactory
    rw [hbp]
    cases hm : bp.system_network_context_manager with
    | none => simp [hm]
    | some m => simp [hm]

/-- C7 witness: in the test harness (browser process present, manager null)
the result is null, not a fault. -/
theorem C7_url_loader_factory_witness :
    (BraveConfigurator.mk scenarioBase true).URLLoaderFactory testingGlobals = Except.ok none :=
  ((C7_url_loader_factory (BraveConfigurator.mk scenarioBase true) testingGlobals).2
    { system_request_context := none, system_network_context_manager := none } rfl).1 rfl

/-! ## Totality -/

/-- C8 fails as stated: before the browser process exists, `RequestContext()`
dereferences the null `g_browser_process` and faults, so not every query other
than `URLLoaderFactory()` returns a value in every state of the singletons. -/
theorem C8_counterexample :
    (BraveConfigurator.mk scenarioBase true).RequestContext noBrowserProcess
        = Except.error Fault.nullDereference
      ∧ ¬ (∀ (c : BraveConfigurator) (g : Globals) (q : Query),
            q ≠ Query.URLLoaderFactory → ∃ v, c.call g q = Except.ok v) := by
  refine ⟨rfl, ?_⟩
  intro h
  obtain ⟨v, hv⟩ := h (BraveConfigurator.mk scenarioBase true) noBrowserProcess
    Query.RequestContext (by decide)
  cases hv

/-- C8 as amended: every query other than `URLLoaderFactory()`,
`RequestContext()` and `CreateServiceManagerConnector()` returns a value for
every configurator and every state of the singletons; `RequestContext()`
returns a value exactly when `g_browser_process` is not null, and the value is
then the browser process's system request context. -/
theorem C8_queries_total (c : BraveConfigurator) (g : Globals) :
    (∀ q : Query, q ≠ Query.URLLoaderFactory → q ≠ Query.RequestContext →
        q ≠ Query.CreateServiceManagerConnector → ∃ v, c.call g q = Except.ok v)
      ∧ ((∃ v, c.call g Query.RequestContext = Except.ok v) ↔ g.g_browser_process ≠ none)
      ∧ (∀ bp, g.g_browser_process = some bp →
          c.RequestContext g = Except.ok bp.system_request_context) := by
  refine ⟨?_, ?_, ?_⟩
  · intro q h1 h2 h3
    cases q <;> first
      | exact absurd rfl h1
      | exact absurd rfl h2
      | exact absurd rfl h3
      | exact ⟨_, rfl⟩
  · cases hg : g.g_browser_process with
    | none =>
      simp [BraveConfigurator.call, BraveConfigurator.RequestContext, hg, Except.map]
    | some bp =>
      simp [BraveConfigurator.call, BraveConfigurator.RequestContext, hg, Except.map]
  · intro bp hbp
    simp [BraveConfigurator.RequestContext, hbp]

/-- C8 witness: in the test harness `GetChannel()` and `RequestContext()` both
return a value. -/
theorem C8_queries_total_witness :
    (∃ v, (BraveConfigurator.mk scenarioBase false).call testingGlobals Query.GetChannel
        = Except.ok v)
      ∧ (BraveConfigurator.mk scenarioBase false).RequestContext testingGlobals
        = Except.ok none :=
  ⟨(C8_queries_total (BraveConfigurator.mk scenarioBase false) testingGlobals).1
      Query.GetChannel (by decide) (by decide) (by decide),
    (C8_queries_total (BraveConfigurator.mk scenarioBase false) testingGlobals).2.2
      { system_request_context := none, system_network_context_manager := none } rfl⟩

/-! ## Identity strings -/

/-- C9: `GetChannel()` is the string `stable` for every configurator, also
when the base policy reports another channel. -/
theorem C9_channel_stable (c : BraveConfigurator) :
    c.GetChannel = "stable"
      ∧ scenarioBase.GetChannel = "beta"
      ∧ (BraveConfigurator.mk scenarioBase false).GetChannel = "stable"
      ∧ (BraveConfigurator.mk scenarioBase true).GetChannel = "stable" :=
  ⟨rfl, rfl, rfl, rfl⟩

/-- C10: `GetProdId()`, `GetBrand()`, `GetLang()` and `GetDownloadPreference()`
are the empty string, of length 0, for every configurator, also when the base
policy reports non-empty values for them. -/
theorem C10_identity_strings_empty (c : BraveConfigurator) :
    (c.GetProdId = "" ∧ c.GetBrand = "" ∧ c.GetLang = "" ∧ c.GetDownloadPreference = "")
      ∧ (c.GetProdId.length = 0 ∧ c.GetBrand.length = 0 ∧ c.GetLang.length = 0
          ∧ c.GetDownloadPreference.length = 0)
      ∧ (scenarioBase.GetProdId ≠ "" ∧ scenarioBase.GetBrand ≠ ""
          ∧ scenarioBase.GetLang ≠ "" ∧ scenarioBase.GetDownloadPreference ≠ "")
      ∧ ((BraveConfigurator.mk scenarioBase false).GetProdId = ""
          ∧ (BraveConfigurator.mk scenarioBase true).GetBrand = ""
          ∧ (BraveConfigurator.mk scenarioBase false).GetLang = ""
          ∧ (BraveConfigurator.mk scenarioBase true).GetDownloadPreference = "") := by
  refine ⟨⟨rfl, rfl, rfl, rfl⟩, ⟨rfl, rfl, rfl, rfl⟩, ?_, ⟨rfl, rfl, rfl, rfl⟩⟩
  simp [scenarioBase]

/-! ## Delays -/

/-- C11: `InitialDelay()`, `NextCheckDelay()`, `OnDemandDelay()` and
`UpdateDelay()` are the base policy's values of the same name in both
deployment modes, and no one of them reads another base delay: with four
distinct base values the four answers are the four values in order. -/
theorem C11_delays_delegate (c : BraveConfigurator) :
    (c.InitialDelay = c.configurator_impl_.InitialDelay
        ∧ c.NextCheckDelay = c.configurator_impl_.NextCheckDelay
        ∧ c.OnDemandDelay = c.configurator_impl_.OnDemandDelay
        ∧ c.UpdateDelay = c.configurator_impl_.UpdateDelay)
      ∧ (∀ a b d : Int,
          (BraveConfigurator.mk { c.configurator_impl_ with
              NextCheckDelay := a, OnDemandDelay := b, UpdateDelay := d }
            c.use_brave_server_).InitialDelay = c.InitialDelay
          ∧ (BraveConfigurator.mk { c.configurator_impl_ with
              InitialDelay := a, OnDemandDelay := b, UpdateDelay := d }
            c.use_brave_server_).NextCheckDelay = c.NextCheckDelay
          ∧ (BraveConfigurator.mk { c.configurator_impl_ with
              InitialDelay := a, NextCheckDelay := b, UpdateDelay := d }
            c.use_brave_server_).OnDemandDelay = c.OnDemandDelay
          ∧ (BraveConfigurator.mk { c.configurator_impl_ with
              InitialDelay := a, NextCheckDelay := b, OnDemandDelay := d }
            c.use_brave_server_).UpdateDelay = c.UpdateDelay)
      ∧ (∀ u : Bool,
          (BraveConfigurator.mk scenarioBase u).InitialDelay = 360
          ∧ (BraveConfigurator.mk scenarioBase u).NextCheckDelay = 18000
          ∧ (BraveConfigurator.mk scenarioBase u).OnDemandDelay = 1800
          ∧ (BraveConfigurator.mk scenarioBase u).UpdateDelay = 900) :=
  ⟨⟨rfl, rfl, rfl, rfl⟩, fun _ _ _ => ⟨rfl, rfl, rfl, rfl⟩, fun _ => ⟨rfl, rfl, rfl, rfl⟩⟩

/-- C12: for every deployment mode and every base policy whose delays are
non-negative, as the specification's DelaySchedule requires, each of
`InitialDelay()`, `NextCheckDelay()`, `OnDemandDelay()` and `UpdateDelay()` is
non-negative. -/
theorem C12_delays_nonneg (c : BraveConfigurator)
    (hbase : c.configurator_impl_.DelayScheduleNonNegative) :
    0 ≤ c.InitialDelay ∧ 0 ≤ c.NextCheckDelay ∧ 0 ≤ c.OnDemandDelay ∧ 0 ≤ c.UpdateDelay :=
  hbase

/-- C12 witness: with the scenario base, whose delays are 360, 18000, 1800 and
900, the four delays are non-negative in both deployment modes. -/
theorem C12_delays_nonneg_witness :
    (0 ≤ (BraveConfigurator.mk scenarioBase true).InitialDelay
        ∧ 0 ≤ (BraveConfigurator.mk scenarioBase true).NextCheckDelay
        ∧ 0 ≤ (BraveConfigurator.mk scenarioBase true).OnDemandDelay
        ∧ 0 ≤ (BraveConfigurator.mk scenarioBase true).UpdateDelay)
      ∧ (0 ≤ (BraveConfigurator.mk scenarioBase false).InitialDelay
        ∧ 0 ≤ (BraveConfigurator.mk scenarioBase false).NextCheckDelay
        ∧ 0 ≤ (BraveConfigurator.mk scenarioBase false).OnDemandDelay
        ∧ 0 ≤ (BraveConfigurator.mk scenarioBase false).UpdateDelay) :=
  ⟨C12_delays_nonneg (BraveConfigurator.mk scenarioBase true) (by decide),
    C12_delays_nonneg (BraveConfigurator.mk scenarioBase false) (by decide)⟩

/-! ## Transport of the endpoints -/

/-- C13 fails as stated: with `use_brave_server = false` and a base policy
whose update URL is a plain-HTTP endpoint, `UpdateUrl()` and `PingUrl()` hold a
URL whose scheme is `http`. -/
theorem C13_counterexample :
    (BraveConfigurator.mk httpBase false).UpdateUrl
        = [GURL.mk "http://default.example/update"]
      ∧ (BraveConfigurator.mk httpBase false).PingUrl
        = [GURL.mk "http://default.example/update"]
      ∧ (GURL.mk "http://default.example/update").scheme = "http"
      ∧ ¬ (∀ c : BraveConfigurator,
            (∀ u ∈ c.UpdateUrl, u.scheme = "https") ∧ (∀ u ∈ c.PingUrl, u.scheme = "https")) := by
  refine ⟨rfl, rfl, rfl, ?_⟩
  intro h
  have h1 := (h (BraveConfigurator.mk httpBase false)).1
    (GURL.mk "http://default.example/update") (by simp [BraveConfigurator.UpdateUrl, httpBase])
  exact absurd h1 (by decide)

/-- C13 as amended: with `use_brave_server = true` every URL of `UpdateUrl()`
and `PingUrl()` has scheme `https`; with `use_brave_server = false` the URLs
are the base policy's, so all of them have scheme `https` exactly when all of
the base policy's update URLs do. -/
theorem C13_urls_https_iff (c : BraveConfigurator) :
    ((∀ u ∈ c.UpdateUrl, u.scheme = "https") ↔
        (c.use_brave_server_ = true ∨ ∀ u ∈ c.configurator_impl_.UpdateUrl, u.scheme = "https"))
      ∧ ((∀ u ∈ c.PingUrl, u.scheme = "https") ↔
        (c.use_brave_server_ = true ∨ ∀ u ∈ c.configurator_impl_.UpdateUrl, u.scheme = "https"))
      ∧ (∀ impl, (∀ u ∈ (BraveConfigurator.mk impl true).UpdateUrl, u.scheme = "https")
          ∧ (∀ u ∈ (BraveConfigurator.mk impl true).PingUrl, u.scheme = "https")) := by
  have hvendor : (GURL.mk "https://laptop-updates.brave.com/extensions").scheme = "https" := rfl
  refine ⟨?_, ?_, fun impl => ⟨?_, ?_⟩⟩
  · cases h : c.use_brave_server_ <;> simp [BraveConfigurator.UpdateUrl, h, hvendor]
  · cases h : c.use_brave_server_ <;>
      simp [BraveConfigurator.PingUrl, BraveConfigurator.UpdateUrl, h, hvendor]
  · simp [BraveConfigurator.UpdateUrl, hvendor]
  · simp [BraveConfigurator.PingUrl, BraveConfigurator.UpdateUrl, hvendor]

/-- C13 witness: in default mode with the scenario base, whose one URL is
`https://default.example/update`, every URL of `UpdateUrl()` has scheme
`https`. -/
theorem C13_urls_https_iff_witness :
    ∀ u ∈ (BraveConfigurator.mk scenarioBase false).UpdateUrl, u.scheme = "https" :=
  (C13_urls_https_iff (BraveConfigurator.mk scenarioBase false)).1.mpr
    (Or.inr (by
      intro u hu
      have hu2 : u = GURL.mk "https://default.example/update" := by
        simpa [scenarioBase] using hu
      rw [hu2]
      rfl))

/-! ## Delegated and fixed answers -/

/-- C14: `EnabledComponentUpdates()`, `EnabledBackgroundDownloader()`,
`GetBrowserVersion()`, `GetOSLongName()`, `ExtraRequestParams()` and
`GetRunActionKeyHash()` are the base policy's answers of the same name, in both
deployment modes. -/
theorem C14_delegating_queries (c : BraveConfigurator) :
    (c.EnabledComponentUpdates = c.configurator_impl_.EnabledComponentUpdates
        ∧ c.EnabledBackgroundDownloader = c.configurator_impl_.EnabledBackgroundDownloader
        ∧ c.GetBrowserVersion = c.configurator_impl_.GetBrowserVersion
        ∧ c.GetOSLongName = c.configurator_impl_.GetOSLongName
        ∧ c.ExtraRequestParams = c.configurator_impl_.ExtraRequestParams
        ∧ c.GetRunActionKeyHash = c.configurator_impl_.GetRunActionKeyHash)
      ∧ (∀ u : Bool,
          (BraveConfigurator.mk scenarioBase u).EnabledComponentUpdates = true
          ∧ (BraveConfigurator.mk scenarioBase u).EnabledBackgroundDownloader = false
          ∧ (BraveConfigurator.mk scenarioBase u).GetBrowserVersion
              = Version.mk [69, 0, 3497, 100]
          ∧ (BraveConfigurator.mk scenarioBase u).GetOSLongName = "Linux"
          ∧ (BraveConfigurator.mk scenarioBase u).ExtraRequestParams = "testrequest=1"
          ∧ (BraveConfigurator.mk scenarioBase u).GetRunActionKeyHash = [1, 2, 3]) :=
  ⟨⟨rfl, rfl, rfl, rfl, rfl, rfl⟩, fun _ => ⟨rfl, rfl, rfl, rfl, rfl, rfl⟩⟩

/-- C15: `GetPrefService()` and `GetActivityDataService()` are null and
`IsPerUserInstall()` is `false` for every configurator, also when the base
policy reports a per-user install. -/
theorem C15_absent_services (c : BraveConfigurator) :
    c.GetPrefService = none
      ∧ c.GetActivityDataService = none
      ∧ c.IsPerUserInstall = false
      ∧ scenarioBase.IsPerUserInstall = true
      ∧ (∀ u : Bool, (BraveConfigurator.mk scenarioBase u).IsPerUserInstall = false) :=
  ⟨rfl, rfl, rfl, rfl, fun _ => rfl⟩

/-! ## The main-thread accessor -/

/-- C17 fails as stated: in a build without `DCHECK`s, called off the UI
thread with the service manager connection up,
`CreateServiceManagerConnector()` returns a connector. -/
theorem C17_counterexample :
    releaseOffThreadGlobals.on_ui_thread = false
      ∧ (BraveConfigurator.mk scenarioBase true).CreateServiceManagerConnector
          releaseOffThreadGlobals = Except.ok (Connector.mk 3)
      ∧ ¬ (∀ (c : BraveConfigurator) (g : Globals), g.on_ui_thread = false →
            c.CreateServiceManagerConnector g = Except.error Fault.dcheckFailed) := by
  refine ⟨rfl, rfl, ?_⟩
  intro h
  have h1 := h (BraveConfigurator.mk scenarioBase true) releaseOffThreadGlobals rfl
  cases h1

/-- C17 as amended: in a build with `DCHECK`s, `CreateServiceManagerConnector()`
called off the UI thread fails the thread assertion before anything else,
whatever the state of the service manager connection, and returns no
connector.  On the UI thread, or in a build without `DCHECK`s, the assertion
does not fail, and the result is the clone of the connector of the
process-wide service manager connection when that connection and its connector
exist. -/
theorem C17_create_connector (c : BraveConfigurator) (g : Globals) :
    (g.dcheck_is_on = true → g.on_ui_thread = false →
        c.CreateServiceManagerConnector g = Except.error Fault.dcheckFailed)
      ∧ ((g.on_ui_thread = true ∨ g.dcheck_is_on = false) →
          c.CreateServiceManagerConnector g ≠ Except.error Fault.dcheckFailed
          ∧ ∀ connection connector, g.GetForProcess = some connection →
              connection.GetConnector = some connector →
              c.CreateServiceManagerConnector g = Except.ok connector) := by
  refine ⟨?_, ?_⟩
  · intro hd hu
    simp [BraveConfigurator.CreateServiceManagerConnector, hd, hu]
  · intro h
    have hcond : (g.dcheck_is_on && !g.on_ui_thread) = false := by
      rcases h with h | h <;> simp [h]
    refine ⟨?_, ?_⟩
    · unfold BraveConfigurator.CreateServiceManagerConnector
      rw [hcond]
      cases hc : g.GetForProcess with
      | none => simp
      | some connection =>
        cases hk : connection.GetConnector <;> simp [hk]
    · intro connection connector hc hk
      unfold BraveConfigurator.CreateServiceManagerConnector
      rw [hcond]
      simp [hc, hk]

/-- C17 witness: with `DCHECK`s on, the call off the UI thread fails the
assertion, and the call on the UI thread returns the connection's connector. -/
theorem C17_create_connector_witness :
    (BraveConfigurator.mk scenarioBase false).CreateServiceManagerConnector
        debugOffThreadGlobals = Except.error Fault.dcheckFailed
      ∧ (BraveConfigurator.mk scenarioBase false).CreateServiceManagerConnector
        runningGlobals = Except.ok (Connector.mk 3) :=
  ⟨(C17_create_connector (BraveConfigurator.mk scenarioBase false) debugOffThreadGlobals).1
      rfl rfl,
    ((C17_create_connector (BraveConfigurator.mk scenarioBase false) runningGlobals).2
      (Or.inl rfl)).2 { GetConnector := some (Connector.mk 3) } (Connector.mk 3) rfl rfl⟩

/-! ## What the constructor arguments reach -/

/-- C18: two configurators with the same base policy, one with
`use_brave_server = true` and one with `use_brave_server = false`, give the
same outcome for every query other than `UpdateUrl()`, `PingUrl()` and
`EnabledCupSigning()`, in every state of the singletons. -/
theorem C18_mode_affects_three_queries (impl : ConfiguratorImpl) (g : Globals) (q : Query)
    (h1 : q ≠ Query.UpdateUrl) (h2 : q ≠ Query.PingUrl) (h3 : q ≠ Query.EnabledCupSigning) :
    (BraveConfigurator.mk impl true).call g q = (BraveConfigurator.mk impl false).call g q := by
  cases q <;> first
    | exact absurd rfl h1
    | exact absurd rfl h2
    | exact absurd rfl h3
    | rfl

/-- C18 witness: `GetBrowserVersion()` and `RequestContext()` do not depend on
the deployment mode. -/
theorem C18_mode_affects_three_queries_witness :
    (BraveConfigurator.mk scenarioBase true).call runningGlobals Query.GetBrowserVersion
        = (BraveConfigurator.mk scenarioBase false).call runningGlobals Query.GetBrowserVersion
      ∧ (BraveConfigurator.mk scenarioBase true).call runningGlobals Query.RequestContext
        = (BraveConfigurator.mk scenarioBase false).call runningGlobals Query.RequestContext :=
  ⟨C18_mode_affects_three_queries scenarioBase runningGlobals Query.GetBrowserVersion
      (by decide) (by decide) (by decide),
    C18_mode_affects_three_queries scenarioBase runningGlobals Query.RequestContext
      (by decide) (by decide) (by decide)⟩

/-- C19: the `url_request_getter` argument does not reach the object: two
constructions (or two calls of `MakeBraveComponentUpdaterConfigurator`) that
differ only in it give equal objects, hence equal outcomes for every query;
and `RequestContext()` returns the system request context of the browser
process, not the getter passed in. -/
theorem C19_getter_ignored
    (base : ComponentUpdaterCommandLineConfigPolicy → Bool → ConfiguratorImpl)
    (cmdline : CommandLine) (getter1 getter2 : Option URLRequestContextGetter)
    (use_brave_server : Bool) :
    BraveConfigurator.new base cmdline getter1 use_brave_server
        = BraveConfigurator.new base cmdline getter2 use_brave_server
      ∧ MakeBraveComponentUpdaterConfigurator base cmdline getter1 use_brave_server
        = MakeBraveComponentUpdaterConfigurator base cmdline getter2 use_brave_server
      ∧ (∀ (g : Globals) (q : Query),
          (MakeBraveComponentUpdaterConfigurator base cmdline getter1 use_brave_server).call g q
            = (MakeBraveComponentUpdaterConfigurator base cmdline getter2
                use_brave_server).call g q)
      ∧ (∀ (g : Globals) (bp : BrowserProcess), g.g_browser_process = some bp →
          (BraveConfigurator.new base cmdline getter1 use_brave_server).RequestContext g
            = Except.ok bp.system_request_context) := by
  refine ⟨rfl, rfl, fun _ _ => rfl, ?_⟩
  intro g bp hbp
  simp [BraveConfigurator.RequestContext, hbp]

/-- C19 witness: constructed with getter 42 while the browser process holds
system request context 1, `RequestContext()` returns context 1. -/
theorem C19_getter_ignored_witness :
    (BraveConfigurator.new recordingBase (CommandLine.mk ["brave"])
        (some (URLRequestContextGetter.mk 42)) true).RequestContext runningGlobals
      = Except.ok (some (URLRequestContextGetter.mk 1)) :=
  (C19_getter_ignored recordingBase (CommandLine.mk ["brave"])
      (some (URLRequestContextGetter.mk 42)) none true).2.2.2 runningGlobals
    { system_request_context := some (URLRequestContextGetter.mk 1)
      system_network_context_manager :=
        some { GetSharedURLLoaderFactory := some (SharedURLLoaderFactory.mk 7) } } rfl

/-- C20: the constructor builds the base `ConfiguratorImpl` from the
command-line policy and the literal `false`, for every command line and both
values of `use_brave_server`; so the base object is the same in both
deployment modes, and a base constructor that records its second argument
reports `false`. -/
theorem C20_require_encryption_false
    (base : ComponentUpdaterCommandLineConfigPolicy → Bool → ConfiguratorImpl)
    (cmdline : CommandLine) (getter : Option URLRequestContextGetter)
    (use_brave_server : Bool) :
    (BraveConfigurator.new base cmdline getter use_brave_server).configurator_impl_
        = base (ComponentUpdaterCommandLineConfigPolicy.mk cmdline) false
      ∧ (MakeBraveComponentUpdaterConfigurator base cmdline getter
          use_brave_server).configurator_impl_
        = base (ComponentUpdaterCommandLineConfigPolicy.mk cmdline) false
      ∧ (BraveConfigurator.new base cmdline getter true).configurator_impl_
        = (BraveConfigurator.new base cmdline getter false).configurator_impl_
      ∧ (BraveConfigurator.new recordingBase cmdline getter
          use_brave_server).EnabledComponentUpdates = false
      ∧ (recordingBase (ComponentUpdaterCommandLineConfigPolicy.mk cmdline)
          true).EnabledComponentUpdates = true :=
  ⟨rfl, rfl, rfl, rfl, rfl⟩

end component_updater
